import Mathlib

/-!
Verification of the dashie_staging client-side auth / Google API layer.

This file shallowly embeds the parts of the repository's JavaScript that the
claims concern:

* `GoogleAPIClient.makeRequest` (js/google-apis/google-api-client.js, lines
  83-207): the retry loop with exponential backoff and reactive token refresh.
  Network responses are supplied by an oracle (`Nat → Outcome`, one outcome per
  attempt number) and the refresh call's success by a second oracle; the
  observable behaviour (number of fetch attempts, refreshes, the waits
  performed, and the final result) is collected in a `Trace`.
* the settings modal glue (settings-main.js, concatenated into
  google-api-client.js in src/): `showSettings`, `setSetting`, `handleCancel`.
  The `SettingsController` class itself (settings-controller.js) is not in
  src/, so its three methods used here are modelled from the spec.
* `AuthManager` (js/auth/auth-manager.js): state fields `currentUser`,
  `isSignedIn`, `nativeAuthAttempted`, the environment flags, the saved-user
  storage, and the public operations.  External inputs (auth results, device
  flow outcomes, the clock) are passed as parameters; UI and storage calls are
  recorded in an effect list.
-/

namespace Dashie

/-! ## Google API client: retry configuration and request loop -/

/-- Shape of `this.retryConfig` of `GoogleAPIClient` (google-api-client.js
lines 40-44). -/
structure RetryConfig where
  maxRetries : Nat
  baseDelay : Nat
  maxDelay : Nat
deriving Repr, DecidableEq

/-- The concrete configuration from the constructor:
`{ maxRetries: 3, baseDelay: 1000, maxDelay: 10000 }`. -/
def retryConfig : RetryConfig := ⟨3, 1000, 10000⟩

/-- What one `fetch` attempt observes: a successful response whose parsed JSON
body is abstracted to a `Nat`, a non-ok HTTP response with its status code, or
a network-level failure (a thrown error carrying no `status` field; this also
covers the `getAccessToken` failure thrown inside the `try` block, which has no
`status` either). -/
inductive Outcome where
  | ok (body : Nat)
  | http (status : Nat)
  | net
deriving Repr, DecidableEq

/-- The error `makeRequest` ultimately throws: an error carrying an HTTP
`status` field, an error with no status (network-level), or the synthetic
`'All API request attempts failed'` error of line 206. -/
inductive ReqError where
  | http (status : Nat)
  | net
  | allFailed
deriving Repr, DecidableEq

/-- Observable effects of one `makeRequest` call: how many `fetch` attempts ran,
how many times `authManager.refreshGoogleAccessToken()` was called, and the
retry waits (`setTimeout` delays, in ms) in order.  The 100 ms rate-limit wait
of `waitForRateLimit` is time-of-day dependent and is not part of the retry
policy, so it is not recorded. -/
structure Trace where
  attempts : Nat
  refreshes : Nat
  delays : List Nat
deriving Repr, DecidableEq

def emptyTrace : Trace := ⟨0, 0, []⟩

/-- The exponential backoff of lines 173-176 / 192-195:
`Math.min(baseDelay * Math.pow(2, attempt), maxDelay)`. -/
def backoffDelay (cfg : RetryConfig) (attempt : Nat) : Nat :=
  min (cfg.baseDelay * 2 ^ attempt) cfg.maxDelay

/-- Line 206: `throw lastError || new Error('All API request attempts failed')`. -/
def errOfLast : Option ReqError → ReqError
  | some e => e
  | none => .allFailed

/-- The body of the `for (let attempt = 0; attempt <= maxRetries; attempt++)`
loop of `makeRequest` (lines 97-203), one constructor branch per status class.
`fuel` is the number of loop iterations still permitted
(`maxRetries + 1 - attempt` at entry); `lastErr` is the `lastError` variable.
Branches, in source order:

* `response.ok` (line 123): return the parsed body.
* status 401 (lines 136-159): if this is not the last attempt, refresh the
  token; on refresh success wait 1000 ms and `continue`, on refresh failure
  throw the 401 error.  On the last attempt throw the 401 error.
* status 403 (lines 162-165): throw, never retry.
* status ≥ 500 or 429 (lines 168-181): record `lastError`; if attempts remain,
  wait the backoff delay and `continue`, otherwise fall through to the
  `throw error` of line 184 (re-thrown by the `catch`, since the error has a
  `status`).
* any other non-ok status (line 184): throw, never retry.
* a thrown error with no `status` (the `catch`, lines 186-202): if attempts
  remain wait the backoff delay and `continue`, else re-throw. -/
def makeRequestGo (cfg : RetryConfig) (oracle : Nat → Outcome)
    (refreshOk : Nat → Bool) :
    Nat → Nat → Option ReqError → Trace → Except ReqError Nat × Trace
  | _, 0, lastErr, tr => (.error (errOfLast lastErr), tr)
  | attempt, fuel + 1, lastErr, tr =>
    let tr1 : Trace := { tr with attempts := tr.attempts + 1 }
    match oracle attempt with
    | .ok b => (.ok b, tr1)
    | .http s =>
      if s = 401 then
        if attempt < cfg.maxRetries then
          if refreshOk attempt then
            makeRequestGo cfg oracle refreshOk (attempt + 1) fuel lastErr
              { tr1 with refreshes := tr1.refreshes + 1
                         delays := tr1.delays ++ [1000] }
          else (.error (.http 401), tr1)
        else (.error (.http 401), tr1)
      else if s = 403 then (.error (.http 403), tr1)
      else if 500 ≤ s ∨ s = 429 then
        if attempt < cfg.maxRetries then
          makeRequestGo cfg oracle refreshOk (attempt + 1) fuel (some (.http s))
            { tr1 with delays := tr1.delays ++ [backoffDelay cfg attempt] }
        else (.error (.http s), tr1)
      else (.error (.http s), tr1)
    | .net =>
      if attempt < cfg.maxRetries then
        makeRequestGo cfg oracle refreshOk (attempt + 1) fuel (some .net)
          { tr1 with delays := tr1.delays ++ [backoffDelay cfg attempt] }
      else (.error .net, tr1)

/-- Function `GoogleAPIClient.makeRequest`: run the loop from attempt 0 with
the constructed client's `retryConfig`. -/
def makeRequest (oracle : Nat → Outcome) (refreshOk : Nat → Bool) :
    Except ReqError Nat × Trace :=
  makeRequestGo retryConfig oracle refreshOk 0 (retryConfig.maxRetries + 1)
    none emptyTrace

/-- A response sequence in which the first two attempts receive HTTP 401 and
the third succeeds. -/
def oracleTwo401 : Nat → Outcome := fun n => if n < 2 then .http 401 else .ok 7

/-- A response sequence in which every attempt succeeds with body 5. -/
def oracleOk5 : Nat → Outcome := fun _ => .ok 5

/-! ## Settings modal (settings-main.js, concatenated into
google-api-client.js in src/) -/

/-- A value stored at a settings key path (a theme name, a time string, a
transition time, a redirect URL). -/
inductive SettingVal where
  | str (s : String)
  | num (n : Int)
deriving Repr, DecidableEq

/-- Modelled from the spec: the `SettingsController` class
(settings-controller.js) is not part of src/; only its call sites in
settings-main.js are.  The spec's data model (§3) describes Settings as a
"nested key-path configuration object (display.theme, sleep.sleepTime/wakeTime,
photos.transitionTime, testing.redirectUrl)", so the controller's settings
object is modelled with exactly those five key paths. -/
structure Settings where
  displayTheme : SettingVal
  sleepSleepTime : SettingVal
  sleepWakeTime : SettingVal
  photosTransitionTime : SettingVal
  testingRedirectUrl : SettingVal
deriving Repr, DecidableEq

/-- Modelled from the spec: `settingsController.setSetting(path, value)`, the
path-based setter of the missing controller ("Mutated via path-based setters",
spec §3).  A path outside the spec's data model leaves the object unchanged
(spec §3: "settings object always has defined defaults via fallback"). -/
def ctrlSetSetting (s : Settings) (path : String) (v : SettingVal) : Settings :=
  if path = "display.theme" then { s with displayTheme := v }
  else if path = "sleep.sleepTime" then { s with sleepSleepTime := v }
  else if path = "sleep.wakeTime" then { s with sleepWakeTime := v }
  else if path = "photos.transitionTime" then { s with photosTransitionTime := v }
  else if path = "testing.redirectUrl" then { s with testingRedirectUrl := v }
  else s

/-- Line 877: `JSON.parse(JSON.stringify(settingsController.getAllSettings()))`,
the deep copy taken when the modal opens.  On the JSON-serializable settings
object a serialize/parse round trip rebuilds every field. -/
def deepCopy (s : Settings) : Settings :=
  ⟨s.displayTheme, s.sleepSleepTime, s.sleepWakeTime, s.photosTransitionTime,
   s.testingRedirectUrl⟩

/-- Modelled from the spec: `settingsController.restoreSettings(snapshot)`
(called by `handleCancel`, line 1417) replaces the controller's settings with
the given snapshot — spec §3: "reverted via a deep-copied snapshot on cancel". -/
def ctrlRestoreSettings (current snapshot : Settings) : Settings := snapshot

/-- The module-level state of settings-main.js that the cancel path touches:
the controller's settings object, the module variable `originalSettings`
(line 820) and the flag `isSettingsVisible` (line 819).  `currentCategory` and
`currentFocus` only drive D-pad navigation and are elided, as is all DOM
manipulation. -/
structure SettingsModule where
  controller : Settings
  originalSettings : Settings
  isSettingsVisible : Bool
deriving Repr, DecidableEq

/-- Function `showSettings` (lines 871-896): return early if the modal is
already visible (line 872), otherwise snapshot a deep copy of the current
settings into `originalSettings` (line 877) and show the modal.  Modal DOM
construction and focus handling are elided. -/
def showSettings (m : SettingsModule) : SettingsModule :=
  if m.isSettingsVisible then m
  else { m with originalSettings := deepCopy m.controller
                isSettingsVisible := true }

/-- The exported `setSetting` (lines 865-868), forwarding to the controller's
path-based setter.  The `!settingsController` guard never fires in this model,
where the controller is always constructed. -/
def setSettingOp (m : SettingsModule) (path : String) (v : SettingVal) :
    SettingsModule :=
  { m with controller := ctrlSetSetting m.controller path v }

/-- A sequence of `setSetting` mutations performed while the modal is open. -/
def applyMutations (m : SettingsModule) (muts : List (String × SettingVal)) :
    SettingsModule :=
  muts.foldl (fun acc pv => setSettingOp acc pv.1 pv.2) m

/-- Function `handleCancel` (lines 1414-1423): restore the snapshot via
`settingsController.restoreSettings(originalSettings)` and hide the modal.
Theme re-application and overlay teardown are elided. -/
def handleCancel (m : SettingsModule) : SettingsModule :=
  { m with controller := ctrlRestoreSettings m.controller m.originalSettings
           isSettingsVisible := false }

/-- A concrete settings state used by witnesses. -/
def exampleSettings : Settings :=
  ⟨.str "dark", .str "22:00", .str "07:00", .num 5, .str "https://example.com"⟩

/-- A concrete module state with the modal closed, used by witnesses. -/
def exampleModule : SettingsModule := ⟨exampleSettings, exampleSettings, false⟩

/-! ## AuthManager (js/auth/auth-manager.js) -/

/-- The User entity (spec §3; built by `setUserFromAuth`, lines 203-212). -/
structure User where
  id : String
  name : String
  email : String
  picture : String
  signedInAt : Nat
  authMethod : String
deriving Repr, DecidableEq

/-- The raw user data a provider hands to `setUserFromAuth`. -/
structure UserData where
  id : String
  name : String
  email : String
  picture : String
deriving Repr, DecidableEq

/-- An auth provider result: `result.success`, `result.user`, `result.error`.
An absent or empty `error` string is falsy in the JS guards. -/
structure AuthResult where
  success : Bool
  user : Option UserData
  error : Option String
deriving Repr, DecidableEq

/-- UI and storage calls the manager makes, recorded in call order. -/
inductive Effect where
  | saveUser (u : User)
  | clearSavedUser
  | showSignedInState
  | showSignInPrompt
  | showWebViewAuthPrompt
  | showAuthError (msg : String)
deriving Repr, DecidableEq

/-- The `AuthManager` state the claims concern: `this.currentUser`,
`this.isSignedIn`, `this.nativeAuthAttempted`, the three environment flags set
in the constructor, the contents of `AuthStorage` (`savedUser`), and the
recorded UI/storage effects. -/
structure AuthState where
  currentUser : Option User
  isSignedIn : Bool
  nativeAuthAttempted : Bool
  isWebView : Bool
  hasNativeAuth : Bool
  isFireTV : Bool
  savedUser : Option User
  effects : List Effect
deriving Repr, DecidableEq

/-- The constructor state (lines 11-26): no current user, not signed in, with
externally determined environment flags and storage contents. -/
def initState (isWebView hasNativeAuth isFireTV : Bool)
    (savedUser : Option User) : AuthState :=
  ⟨none, false, false, isWebView, hasNativeAuth, isFireTV, savedUser, []⟩

/-- The user object `setUserFromAuth` builds (lines 204-211); `Date.now()` is
passed in as `now`. -/
def mkUser (ud : UserData) (method : String) (now : Nat) : User :=
  ⟨ud.id, ud.name, ud.email, ud.picture, now, method⟩

/-- Method `setUserFromAuth` (lines 203-212). -/
def setUserFromAuth (s : AuthState) (ud : UserData) (method : String)
    (now : Nat) : AuthState :=
  { s with currentUser := some (mkUser ud method now) }

/-- The successful-auth sequence repeated at lines 131-134, 157-160, 173-176,
192-195 and 256-259: `setUserFromAuth`, `isSignedIn = true`,
`storage.saveUser(this.currentUser)`, `ui.showSignedInState()`. -/
def authSuccess (s : AuthState) (ud : UserData) (method : String)
    (now : Nat) : AuthState :=
  { s with currentUser := some (mkUser ud method now)
           isSignedIn := true
           savedUser := some (mkUser ud method now)
           effects := s.effects ++ [.saveUser (mkUser ud method now),
                                    .showSignedInState] }

/-- Method `checkExistingAuth` (lines 101-109): adopt the saved user if one
exists. -/
def checkExistingAuth (s : AuthState) : AuthState :=
  match s.savedUser with
  | some u => { s with currentUser := some u
                       isSignedIn := true
                       effects := s.effects ++ [.showSignedInState] }
  | none => s

/-- Method `handleFireTVAuthFailure` (lines 148-186).  `dfr` is the outcome of
`deviceFlowAuth.startDeviceFlow()` and `fbr` of
`fireTVFallback.showFireTVFallback()` (`.error` = the promise rejected).  If
the device flow resolves without `success && user`, the `try` block simply
runs out and nothing happens; the fallback is only consulted when the device
flow rejects, and the error UI only when both reject. -/
def handleFireTVAuthFailure (s : AuthState) (dfr fbr : Except String AuthResult)
    (now : Nat) : AuthState :=
  match dfr with
  | .ok r =>
    match r.user, r.success with
    | some ud, true => authSuccess s ud "device_flow" now
    | _, _ => s
  | .error _ =>
    match fbr with
    | .ok r =>
      match r.user, r.success with
      | some ud, true => authSuccess s ud "fire_tv_fallback" now
      | _, _ => s
    | .error _ =>
      { s with effects := s.effects ++
          [.showAuthError "Authentication failed. Please check your network connection and try again."] }

/-- Method `handleNativeAuthResult` (lines 126-146): mark the attempt, adopt
the user on success; on failure fall back Fire-TV style or surface the error
unless it is falsy or the literal cancellation message. -/
def handleNativeAuthResult (s : AuthState) (r : AuthResult)
    (dfr fbr : Except String AuthResult) (now : Nat) : AuthState :=
  let s1 := { s with nativeAuthAttempted := true }
  match r.user, r.success with
  | some ud, true => authSuccess s1 ud "native" now
  | _, _ =>
    if s1.isFireTV then handleFireTVAuthFailure s1 dfr fbr now
    else
      match r.error with
      | some e =>
        if e = "" ∨ e = "Sign-in was cancelled" then s1
        else { s1 with effects := s1.effects ++ [.showAuthError e] }
      | none => s1

/-- JS `result.error || defaultMsg`: the default replaces an absent or empty
(falsy) error string. -/
def errMsgOr (e : Option String) (d : String) : String :=
  match e with
  | some m => if m = "" then d else m
  | none => d

/-- Method `handleWebAuthResult` (lines 188-201). -/
def handleWebAuthResult (s : AuthState) (r : AuthResult) (now : Nat) :
    AuthState :=
  match r.user, r.success with
  | some ud, true => authSuccess s ud "web" now
  | _, _ =>
    { s with effects := s.effects ++
        [.showAuthError (errMsgOr r.error "Web authentication failed")] }

/-- Method `createWebViewUser` (lines 214-231). -/
def createWebViewUser (s : AuthState) (now : Nat) : AuthState :=
  { s with currentUser := some (webViewUserObj now)
           isSignedIn := true
           savedUser := some (webViewUserObj now)
           effects := s.effects ++ [.saveUser (webViewUserObj now),
                                    .showSignedInState] }
where
  webViewUserObj (now : Nat) : User :=
    ⟨"webview-user-" ++ toString now, "Dashie User", "user@dashie.app",
     "icons/icon-profile-round.svg", now, "webview"⟩

/-- Method `signIn` (lines 233-277).  With native auth, `nativeAuth.signIn()`
is an external call whose result arrives later through
`handleNativeAuthResult`, so the state is unchanged here (the 3-second Fire TV
timeout callback is asynchronous and elided).  On Fire TV without native auth
the device flow `dfr` runs; if it rejects, `handleFireTVAuthFailure` runs with
a fresh device flow `dfr2` and fallback `fbr2`.  Otherwise web sign-in runs:
`webOk = false` means `webAuth.signIn()` rejected. -/
def signIn (s : AuthState) (dfr dfr2 fbr2 : Except String AuthResult)
    (webOk : Bool) (now : Nat) : AuthState :=
  if s.hasNativeAuth then s
  else if s.isFireTV then
    match dfr with
    | .ok r =>
      match r.user, r.success with
      | some ud, true => authSuccess s ud "device_flow" now
      | _, _ => s
    | .error _ => handleFireTVAuthFailure s dfr2 fbr2 now
  else if webOk then s
  else { s with effects := s.effects ++
          [.showAuthError "Sign-in failed. Please try again."] }

/-- Method `signOut` (lines 279-301): clear the user, the flag, the attempt
marker and the saved user, then show the environment-appropriate prompt.  The
`nativeAuth.signOut()` / `webAuth.signOut()` calls are external and stateless
here. -/
def signOut (s : AuthState) : AuthState :=
  { s with currentUser := none
           isSignedIn := false
           nativeAuthAttempted := false
           savedUser := none
           effects := s.effects ++ [.clearSavedUser,
             if s.isWebView && !s.hasNativeAuth then .showWebViewAuthPrompt
             else .showSignInPrompt] }

/-- Method `handleAuthFailure` (lines 315-333): fall back to the saved user
when one exists; otherwise show the environment-specific recovery (Fire TV
fallback chain, WebView prompt, or an error). -/
def handleAuthFailure (s : AuthState) (err : String)
    (dfr fbr : Except String AuthResult) (now : Nat) : AuthState :=
  match s.savedUser with
  | some u => { s with currentUser := some u
                       isSignedIn := true
                       effects := s.effects ++ [.showSignedInState] }
  | none =>
    if s.isFireTV then handleFireTVAuthFailure s dfr fbr now
    else if s.isWebView then
      { s with effects := s.effects ++ [.showWebViewAuthPrompt] }
    else
      { s with effects := s.effects ++
          [.showAuthError "Authentication service is currently unavailable."] }

/-- Method `getUser` (lines 336-338). -/
def getUser (s : AuthState) : Option User := s.currentUser

/-- Method `isAuthenticated` (lines 340-342):
`this.isSignedIn && this.currentUser !== null`. -/
def isAuthenticated (s : AuthState) : Bool :=
  s.isSignedIn && s.currentUser.isSome

/-- One invocation of a public `AuthManager` operation, with its external
inputs. -/
inductive AuthOp where
  | checkExisting
  | nativeResult (r : AuthResult) (dfr fbr : Except String AuthResult) (now : Nat)
  | webResult (r : AuthResult) (now : Nat)
  | fireTVFailure (dfr fbr : Except String AuthResult) (now : Nat)
  | webViewUser (now : Nat)
  | doSignIn (dfr dfr2 fbr2 : Except String AuthResult) (webOk : Bool) (now : Nat)
  | doSignOut
  | authFailure (err : String) (dfr fbr : Except String AuthResult) (now : Nat)

/-- Dispatch one public operation. -/
def applyOp (s : AuthState) : AuthOp → AuthState
  | .checkExisting => checkExistingAuth s
  | .nativeResult r dfr fbr now => handleNativeAuthResult s r dfr fbr now
  | .webResult r now => handleWebAuthResult s r now
  | .fireTVFailure dfr fbr now => handleFireTVAuthFailure s dfr fbr now
  | .webViewUser now => createWebViewUser s now
  | .doSignIn dfr dfr2 fbr2 webOk now => signIn s dfr dfr2 fbr2 webOk now
  | .doSignOut => signOut s
  | .authFailure err dfr fbr now => handleAuthFailure s err dfr fbr now

/-- Run a sequence of public operations. -/
def applyOps (s : AuthState) (ops : List AuthOp) : AuthState :=
  ops.foldl applyOp s

/-- The claimed invariant: `isSignedIn === true` implies `currentUser` is
non-null. -/
def SignedInInv (s : AuthState) : Prop :=
  s.isSignedIn = true → s.currentUser.isSome = true

/-- The stronger invariant the operations actually maintain: the flag agrees
with user presence. -/
def userMatchesFlag (s : AuthState) : Prop :=
  s.isSignedIn = s.currentUser.isSome

/-- A concrete user for witnesses. -/
def exampleUser : User := ⟨"u1", "Ada", "ada@example.com", "pic.png", 0, "web"⟩

/-- A concrete signed-in state with a saved user, for witnesses. -/
def exampleState : AuthState :=
  ⟨some exampleUser, true, false, false, false, false, some exampleUser, []⟩

/-- A concrete signed-out browser state with no saved user, for witnesses. -/
def exampleStateNoSave : AuthState :=
  ⟨none, false, false, false, false, false, none, []⟩

/-- How one public operation may change the `(currentUser, isSignedIn)` pair:
it leaves both untouched, or signs a user in (non-null user, flag true), or
signs out (null user, flag false). -/
def stepShape (s t : AuthState) : Prop :=
  (t.currentUser = s.currentUser ∧ t.isSignedIn = s.isSignedIn) ∨
  (∃ u, t.currentUser = some u ∧ t.isSignedIn = true) ∨
  (t.currentUser = none ∧ t.isSignedIn = false)

/-! ## Helper lemmas -/

theorem go_401_refresh (cfg : RetryConfig) (oracle : Nat → Outcome)
    (refreshOk : Nat → Bool) (attempt fuel : Nat) (lastErr : Option ReqError)
    (tr : Trace) (h : oracle attempt = .http 401)
    (hlt : attempt < cfg.maxRetries) (hr : refreshOk attempt = true) :
    makeRequestGo cfg oracle refreshOk attempt (fuel + 1) lastErr tr =
      makeRequestGo cfg oracle refreshOk (attempt + 1) fuel lastErr
        ⟨tr.attempts + 1, tr.refreshes + 1, tr.delays ++ [1000]⟩ := by
  simp [makeRequestGo, h, hlt, hr]

theorem refreshes_le (cfg : RetryConfig) (oracle : Nat → Outcome)
    (refreshOk : Nat → Bool) :
    ∀ fuel attempt lastErr tr,
      (makeRequestGo cfg oracle refreshOk attempt fuel lastErr tr).2.refreshes ≤
        tr.refreshes + (cfg.maxRetries - attempt) := by
  intro fuel
  induction fuel with
  | zero => intro attempt lastErr tr; simp [makeRequestGo]
  | succ n ih =>
    intro attempt lastErr tr
    rcases h : oracle attempt with b | s | _
    · simp [makeRequestGo, h]
    · by_cases h401 : s = 401
      · subst h401
        by_cases hlt : attempt < cfg.maxRetries
        · by_cases hr : refreshOk attempt = true
          · rw [go_401_refresh cfg oracle refreshOk attempt n lastErr tr h hlt hr]
            have := ih (attempt + 1) lastErr
              ⟨tr.attempts + 1, tr.refreshes + 1, tr.delays ++ [1000]⟩
            simp at this ⊢
            omega
          · simp [makeRequestGo, h, hlt, hr]
        · simp [makeRequestGo, h, hlt]
      · by_cases h403 : s = 403
        · subst h403; simp [makeRequestGo, h]
        · by_cases h5xx : 500 ≤ s ∨ s = 429
          · by_cases hlt : attempt < cfg.maxRetries
            · have hstep : makeRequestGo cfg oracle refreshOk attempt (n + 1) lastErr tr =
                  makeRequestGo cfg oracle refreshOk (attempt + 1) n (some (.http s))
                    ⟨tr.attempts + 1, tr.refreshes,
                     tr.delays ++ [backoffDelay cfg attempt]⟩ := by
                simp [makeRequestGo, h, h401, h403, h5xx, hlt]
              rw [hstep]
              have := ih (attempt + 1) (some (.http s))
                ⟨tr.attempts + 1, tr.refreshes, tr.delays ++ [backoffDelay cfg attempt]⟩
              simp at this ⊢
              omega
            · simp [makeRequestGo, h, h401, h403, h5xx, hlt]
          · simp [makeRequestGo, h, h401, h403, h5xx]
    · by_cases hlt : attempt < cfg.maxRetries
      · have hstep : makeRequestGo cfg oracle refreshOk attempt (n + 1) lastErr tr =
            makeRequestGo cfg oracle refreshOk (attempt + 1) n (some .net)
              ⟨tr.attempts + 1, tr.refreshes,
               tr.delays ++ [backoffDelay cfg attempt]⟩ := by
          simp [makeRequestGo, h, hlt]
        rw [hstep]
        have := ih (attempt + 1) (some .net)
          ⟨tr.attempts + 1, tr.refreshes, tr.delays ++ [backoffDelay cfg attempt]⟩
        simp at this ⊢
        omega
      · simp [makeRequestGo, h, hlt]

theorem attempts_le (cfg : RetryConfig) (oracle : Nat → Outcome)
    (refreshOk : Nat → Bool) :
    ∀ fuel attempt lastErr tr,
      (makeRequestGo cfg oracle refreshOk attempt fuel lastErr tr).2.attempts ≤
        tr.attempts + fuel := by
  intro fuel
  induction fuel with
  | zero => intro attempt lastErr tr; simp [makeRequestGo]
  | succ n ih =>
    intro attempt lastErr tr
    rcases h : oracle attempt with b | s | _
    · simp [makeRequestGo, h]
    · by_cases h401 : s = 401
      · subst h401
        by_cases hlt : attempt < cfg.maxRetries
        · by_cases hr : refreshOk attempt = true
          · rw [go_401_refresh cfg oracle refreshOk attempt n lastErr tr h hlt hr]
            have := ih (attempt + 1) lastErr
              ⟨tr.attempts + 1, tr.refreshes + 1, tr.delays ++ [1000]⟩
            simp at this ⊢
            omega
          · simp [makeRequestGo, h, hlt, hr]
        · simp [makeRequestGo, h, hlt]
      · by_cases h403 : s = 403
        · subst h403; simp [makeRequestGo, h]
        · by_cases h5xx : 500 ≤ s ∨ s = 429
          · by_cases hlt : attempt < cfg.maxRetries
            · have hstep : makeRequestGo cfg oracle refreshOk attempt (n + 1) lastErr tr =
                  makeRequestGo cfg oracle refreshOk (attempt + 1) n (some (.http s))
                    ⟨tr.attempts + 1, tr.refreshes,
                     tr.delays ++ [backoffDelay cfg attempt]⟩ := by
                simp [makeRequestGo, h, h401, h403, h5xx, hlt]
              rw [hstep]
              have := ih (attempt + 1) (some (.http s))
                ⟨tr.attempts + 1, tr.refreshes, tr.delays ++ [backoffDelay cfg attempt]⟩
              simp at this ⊢
              omega
            · simp [makeRequestGo, h, h401, h403, h5xx, hlt]
          · simp [makeRequestGo, h, h401, h403, h5xx]
    · by_cases hlt : attempt < cfg.maxRetries
      · have hstep : makeRequestGo cfg oracle refreshOk attempt (n + 1) lastErr tr =
            makeRequestGo cfg oracle refreshOk (attempt + 1) n (some .net)
              ⟨tr.attempts + 1, tr.refreshes,
               tr.delays ++ [backoffDelay cfg attempt]⟩ := by
          simp [makeRequestGo, h, hlt]
        rw [hstep]
        have := ih (attempt + 1) (some .net)
          ⟨tr.attempts + 1, tr.refreshes, tr.delays ++ [backoffDelay cfg attempt]⟩
        simp at this ⊢
        omega
      · simp [makeRequestGo, h, hlt]

theorem ok_from_oracle (cfg : RetryConfig) (oracle : Nat → Outcome)
    (refreshOk : Nat → Bool) :
    ∀ fuel attempt lastErr tr b,
      (makeRequestGo cfg oracle refreshOk attempt fuel lastErr tr).1 = .ok b →
      ∃ i, oracle i = .ok b := by
  intro fuel
  induction fuel with
  | zero => intro attempt lastErr tr b hres; simp [makeRequestGo] at hres
  | succ n ih =>
    intro attempt lastErr tr b hres
    rcases h : oracle attempt with c | s | _
    · simp [makeRequestGo, h] at hres
      exact ⟨attempt, by rw [h, hres]⟩
    · by_cases h401 : s = 401
      · subst h401
        by_cases hlt : attempt < cfg.maxRetries
        · by_cases hr : refreshOk attempt = true
          · rw [go_401_refresh cfg oracle refreshOk attempt n lastErr tr h hlt hr] at hres
            exact ih _ _ _ _ hres
          · simp [makeRequestGo, h, hlt, hr] at hres
        · simp [makeRequestGo, h, hlt] at hres
      · by_cases h403 : s = 403
        · subst h403; simp [makeRequestGo, h] at hres
        · by_cases h5xx : 500 ≤ s ∨ s = 429
          · by_cases hlt : attempt < cfg.maxRetries
            · have hstep : makeRequestGo cfg oracle refreshOk attempt (n + 1) lastErr tr =
                  makeRequestGo cfg oracle refreshOk (attempt + 1) n (some (.http s))
                    ⟨tr.attempts + 1, tr.refreshes,
                     tr.delays ++ [backoffDelay cfg attempt]⟩ := by
                simp [makeRequestGo, h, h401, h403, h5xx, hlt]
              rw [hstep] at hres
              exact ih _ _ _ _ hres
            · simp [makeRequestGo, h, h401, h403, h5xx, hlt] at hres
          · simp [makeRequestGo, h, h401, h403, h5xx] at hres
    · by_cases hlt : attempt < cfg.maxRetries
      · have hstep : makeRequestGo cfg oracle refreshOk attempt (n + 1) lastErr tr =
            makeRequestGo cfg oracle refreshOk (attempt + 1) n (some .net)
              ⟨tr.attempts + 1, tr.refreshes,
               tr.delays ++ [backoffDelay cfg attempt]⟩ := by
          simp [makeRequestGo, h, hlt]
        rw [hstep] at hres
        exact ih _ _ _ _ hres
      · simp [makeRequestGo, h, hlt] at hres

theorem go_no_allFailed (cfg : RetryConfig) (oracle : Nat → Outcome)
    (refreshOk : Nat → Bool) :
    ∀ fuel attempt lastErr tr, 1 ≤ fuel →
      attempt + fuel = cfg.maxRetries + 1 →
      (makeRequestGo cfg oracle refreshOk attempt fuel lastErr tr).1 ≠
        .error .allFailed := by
  intro fuel
  induction fuel with
  | zero => intro attempt lastErr tr h1 _; exact (Nat.not_succ_le_zero 0 h1).elim
  | succ n ih =>
    intro attempt lastErr tr _ hinv
    rcases h : oracle attempt with b | s | _
    · simp [makeRequestGo, h]
    · by_cases h401 : s = 401
      · subst h401
        by_cases hlt : attempt < cfg.maxRetries
        · by_cases hr : refreshOk attempt = true
          · rw [go_401_refresh cfg oracle refreshOk attempt n lastErr tr h hlt hr]
            exact ih (attempt + 1) lastErr _ (by omega) (by omega)
          · simp [makeRequestGo, h, hlt, hr]
        · simp [makeRequestGo, h, hlt]
      · by_cases h403 : s = 403
        · subst h403; simp [makeRequestGo, h]
        · by_cases h5xx : 500 ≤ s ∨ s = 429
          · by_cases hlt : attempt < cfg.maxRetries
            · have hstep : makeRequestGo cfg oracle refreshOk attempt (n + 1) lastErr tr =
                  makeRequestGo cfg oracle refreshOk (attempt + 1) n (some (.http s))
                    ⟨tr.attempts + 1, tr.refreshes,
                     tr.delays ++ [backoffDelay cfg attempt]⟩ := by
                simp [makeRequestGo, h, h401, h403, h5xx, hlt]
              rw [hstep]
              exact ih (attempt + 1) _ _ (by omega) (by omega)
            · simp [makeRequestGo, h, h401, h403, h5xx, hlt]
          · simp [makeRequestGo, h, h401, h403, h5xx]
    · by_cases hlt : attempt < cfg.maxRetries
      · have hstep : makeRequestGo cfg oracle refreshOk attempt (n + 1) lastErr tr =
            makeRequestGo cfg oracle refreshOk (attempt + 1) n (some .net)
              ⟨tr.attempts + 1, tr.refreshes,
               tr.delays ++ [backoffDelay cfg attempt]⟩ := by
          simp [makeRequestGo, h, hlt]
        rw [hstep]
        exact ih (attempt + 1) _ _ (by omega) (by omega)
      · simp [makeRequestGo, h, hlt]

theorem deepCopy_id (s : Settings) : deepCopy s = s := rfl

theorem applyMutations_originalSettings (muts : List (String × SettingVal)) :
    ∀ m : SettingsModule,
      (applyMutations m muts).originalSettings = m.originalSettings := by
  induction muts with
  | nil => intro m; rfl
  | cons p rest ih =>
    intro m
    have hstep : applyMutations m (p :: rest) =
        applyMutations (setSettingOp m p.1 p.2) rest := rfl
    rw [hstep, ih]
    rfl

theorem authSuccess_fields (s : AuthState) (ud : UserData) (method : String)
    (now : Nat) :
    (authSuccess s ud method now).currentUser = some (mkUser ud method now) ∧
    (authSuccess s ud method now).isSignedIn = true := by
  simp [authSuccess]

theorem fireTV_shape (s : AuthState) (dfr fbr : Except String AuthResult)
    (now : Nat) : stepShape s (handleFireTVAuthFailure s dfr fbr now) := by
  rcases dfr with e | r
  · rcases fbr with e2 | r2
    · left; simp [handleFireTVAuthFailure]
    · rcases hr : r2.user with _ | ud
      · left; simp [handleFireTVAuthFailure, hr]
      · rcases hs : r2.success with _ | _
        · left; simp [handleFireTVAuthFailure, hr, hs]
        · right; left
          exact ⟨mkUser ud "fire_tv_fallback" now,
            by simp [handleFireTVAuthFailure, hr, hs, authSuccess]⟩
  · rcases hr : r.user with _ | ud
    · left; simp [handleFireTVAuthFailure, hr]
    · rcases hs : r.success with _ | _
      · left; simp [handleFireTVAuthFailure, hr, hs]
      · right; left
        exact ⟨mkUser ud "device_flow" now,
          by simp [handleFireTVAuthFailure, hr, hs, authSuccess]⟩

theorem stepShape_congr (s s' t : AuthState)
    (hu : s'.currentUser = s.currentUser) (hf : s'.isSignedIn = s.isSignedIn)
    (h : stepShape s' t) : stepShape s t := by
  rcases h with ⟨h1, h2⟩ | hmid | hout
  · left; exact ⟨h1.trans hu, h2.trans hf⟩
  · right; left; exact hmid
  · right; right; exact hout

theorem applyOp_shape (s : AuthState) (op : AuthOp) :
    stepShape s (applyOp s op) := by
  cases op with
  | checkExisting =>
    rcases h : s.savedUser with _ | u
    · left; simp [applyOp, checkExistingAuth, h]
    · right; left
      exact ⟨u, by simp [applyOp, checkExistingAuth, h]⟩
  | nativeResult r dfr fbr now =>
    rcases hu : r.user with _ | ud <;> rcases hs : r.success with _ | _
    · by_cases hf : s.isFireTV
      · simp only [applyOp, handleNativeAuthResult, hu, hs, hf, if_true]
        exact stepShape_congr s _ _ rfl rfl (fireTV_shape _ dfr fbr now)
      · rcases he : r.error with _ | e
        · left; simp [applyOp, handleNativeAuthResult, hu, hs, hf, he]
        · by_cases hc : e = "" ∨ e = "Sign-in was cancelled" <;>
            (left; simp [applyOp, handleNativeAuthResult, hu, hs, hf, he, hc])
    · by_cases hf : s.isFireTV
      · simp only [applyOp, handleNativeAuthResult, hu, hs, hf, if_true]
        exact stepShape_congr s _ _ rfl rfl (fireTV_shape _ dfr fbr now)
      · rcases he : r.error with _ | e
        · left; simp [applyOp, handleNativeAuthResult, hu, hs, hf, he]
        · by_cases hc : e = "" ∨ e = "Sign-in was cancelled" <;>
            (left; simp [applyOp, handleNativeAuthResult, hu, hs, hf, he, hc])
    · by_cases hf : s.isFireTV
      · simp only [applyOp, handleNativeAuthResult, hu, hs, hf, if_true]
        exact stepShape_congr s _ _ rfl rfl (fireTV_shape _ dfr fbr now)
      · rcases he : r.error with _ | e
        · left; simp [applyOp, handleNativeAuthResult, hu, hs, hf, he]
        · by_cases hc : e = "" ∨ e = "Sign-in was cancelled" <;>
            (left; simp [applyOp, handleNativeAuthResult, hu, hs, hf, he, hc])
    · right; left
      exact ⟨mkUser ud "native" now,
        by simp [applyOp, handleNativeAuthResult, hu, hs, authSuccess]⟩
  | webResult r now =>
    rcases hu : r.user with _ | ud <;> rcases hs : r.success with _ | _
    · left; simp [applyOp, handleWebAuthResult, hu, hs]
    · left; simp [applyOp, handleWebAuthResult, hu, hs]
    · left; simp [applyOp, handleWebAuthResult, hu, hs]
    · right; left
      exact ⟨mkUser ud "web" now,
        by simp [applyOp, handleWebAuthResult, hu, hs, authSuccess]⟩
  | fireTVFailure dfr fbr now =>
    exact fireTV_shape s dfr fbr now
  | webViewUser now =>
    right; left
    exact ⟨createWebViewUser.webViewUserObj now, by simp [applyOp, createWebViewUser]⟩
  | doSignIn dfr dfr2 fbr2 webOk now =>
    by_cases hn : s.hasNativeAuth
    · left; simp [applyOp, signIn, hn]
    · by_cases hf : s.isFireTV
      · rcases dfr with e | r
        · simp only [applyOp, signIn, hn, hf, if_true, if_false,
            Bool.false_eq_true]
          exact fireTV_shape s dfr2 fbr2 now
        · rcases hu : r.user with _ | ud <;> rcases hs : r.success with _ | _
          · left; simp [applyOp, signIn, hn, hf, hu, hs]
          · left; simp [applyOp, signIn, hn, hf, hu, hs]
          · left; simp [applyOp, signIn, hn, hf, hu, hs]
          · right; left
            exact ⟨mkUser ud "device_flow" now,
              by simp [applyOp, signIn, hn, hf, hu, hs, authSuccess]⟩
      · by_cases hw : webOk
        · left; simp [applyOp, signIn, hn, hf, hw]
        · left; simp [applyOp, signIn, hn, hf, hw]
  | doSignOut =>
    right; right; simp [applyOp, signOut]
  | authFailure err dfr fbr now =>
    rcases h : s.savedUser with _ | u
    · by_cases hf : s.isFireTV
      · simp only [applyOp, handleAuthFailure, h, hf, if_true]
        exact fireTV_shape s dfr fbr now
      · by_cases hw : s.isWebView <;>
          (left; simp [applyOp, handleAuthFailure, h, hf, hw])
    · right; left
      exact ⟨u, by simp [applyOp, handleAuthFailure, h]⟩

theorem inv_of_shape (s t : AuthState) (hs : stepShape s t)
    (h : SignedInInv s) : SignedInInv t := by
  rcases hs with ⟨h1, h2⟩ | ⟨u, h1, h2⟩ | ⟨h1, h2⟩
  · intro hf; rw [h1]; exact h (h2.symm.trans hf)
  · intro _; rw [h1]; rfl
  · intro hf; exact absurd (h2.symm.trans hf) (by simp)

theorem flag_of_shape (s t : AuthState) (hs : stepShape s t)
    (h : userMatchesFlag s) : userMatchesFlag t := by
  rcases hs with ⟨h1, h2⟩ | ⟨u, h1, h2⟩ | ⟨h1, h2⟩
  · unfold userMatchesFlag at h ⊢; rw [h1, h2]; exact h
  · unfold userMatchesFlag; rw [h1, h2]; rfl
  · unfold userMatchesFlag; rw [h1, h2]; rfl

theorem flag_applyOps (ops : List AuthOp) :
    ∀ s : AuthState, userMatchesFlag s → userMatchesFlag (applyOps s ops) := by
  induction ops with
  | nil => intro s h; exact h
  | cons op rest ih =>
    intro s h
    have hstep : applyOps s (op :: rest) = applyOps (applyOp s op) rest := rfl
    rw [hstep]
    exact ih _ (flag_of_shape _ _ (applyOp_shape s op) h)

theorem isAuth_eq (s : AuthState) (h : userMatchesFlag s) :
    isAuthenticated s = s.currentUser.isSome := by
  unfold userMatchesFlag at h
  unfold isAuthenticated
  rw [h, Bool.and_self]

/-! ## Claim theorems -/

/-- C1, counterexample: the claim says a request never refreshes credentials
more than once, but on the response sequence 401, 401, success (with every
refresh succeeding) `makeRequest` refreshes the token twice — once per
401-receiving non-final attempt. -/
theorem c1_counterexample :
    (makeRequest oracleTwo401 (fun _ => true)).2.refreshes = 2 ∧
    ¬ (makeRequest oracleTwo401 (fun _ => true)).2.refreshes ≤ 1 := by
  constructor
  · rfl
  · decide

/-- C1, amended: when an attempt receives HTTP 401, attempts remain and the
refresh succeeds, the client performs exactly one credential refresh, waits
1000 ms and retries; this can recur on every non-final attempt, so one request
performs at most `maxRetries` (= 3) refreshes — not at most one. -/
theorem c1_amended_refresh :
    (∀ (oracle : Nat → Outcome) (refreshOk : Nat → Bool) (attempt fuel : Nat)
        (lastErr : Option ReqError) (tr : Trace),
      oracle attempt = .http 401 → attempt < retryConfig.maxRetries →
      refreshOk attempt = true →
      makeRequestGo retryConfig oracle refreshOk attempt (fuel + 1) lastErr tr =
        makeRequestGo retryConfig oracle refreshOk (attempt + 1) fuel lastErr
          ⟨tr.attempts + 1, tr.refreshes + 1, tr.delays ++ [1000]⟩) ∧
    (∀ (oracle : Nat → Outcome) (refreshOk : Nat → Bool),
      (makeRequest oracle refreshOk).2.refreshes ≤ retryConfig.maxRetries) := by
  constructor
  · intro oracle refreshOk attempt fuel lastErr tr h hlt hr
    exact go_401_refresh retryConfig oracle refreshOk attempt fuel lastErr tr h hlt hr
  · intro oracle refreshOk
    have := refreshes_le retryConfig oracle refreshOk
      (retryConfig.maxRetries + 1) 0 none emptyTrace
    simpa [makeRequest, emptyTrace] using this

/-- Witness for the amended C1 theorem at the two-401 oracle, first attempt. -/
theorem c1_amended_refresh_witness :
    (makeRequestGo retryConfig oracleTwo401 (fun _ => true) 0 4 none emptyTrace =
      makeRequestGo retryConfig oracleTwo401 (fun _ => true) 1 3 none
        ⟨1, 1, [1000]⟩) ∧
    (makeRequest oracleTwo401 (fun _ => true)).2.refreshes ≤
      retryConfig.maxRetries := by
  constructor
  · have h := c1_amended_refresh.1 oracleTwo401 (fun _ => true) 0 3 none
      emptyTrace rfl (by decide) rfl
    simpa [emptyTrace] using h
  · exact c1_amended_refresh.2 oracleTwo401 (fun _ => true)

/-- C2: on any attempt that receives HTTP 403 the request fails immediately
with that error — no retry wait is recorded, no refresh happens, and no
further fetch attempt is made. -/
theorem c2_http403_fail_immediate (oracle : Nat → Outcome)
    (refreshOk : Nat → Bool) (attempt fuel : Nat) (lastErr : Option ReqError)
    (tr : Trace) (h : oracle attempt = .http 403) :
    makeRequestGo retryConfig oracle refreshOk attempt (fuel + 1) lastErr tr =
      (.error (.http 403), ⟨tr.attempts + 1, tr.refreshes, tr.delays⟩) := by
  simp [makeRequestGo, h]

/-- Witness for C2: a request whose first attempt receives 403. -/
theorem c2_http403_fail_immediate_witness :
    makeRequestGo retryConfig (fun _ => Outcome.http 403) (fun _ => true) 0 4
      none emptyTrace = (.error (.http 403), ⟨1, 0, []⟩) := by
  simpa [emptyTrace] using c2_http403_fail_immediate (fun _ => Outcome.http 403)
    (fun _ => true) 0 3 none emptyTrace rfl

/-- C3: when attempt `attempt` receives a status ≥ 500 or 429 and attempts
remain, the client waits exactly `min(1000 * 2 ^ attempt, 10000)` ms and
retries with the next attempt number. -/
theorem c3_backoff_5xx_429 (oracle : Nat → Outcome) (refreshOk : Nat → Bool)
    (attempt fuel : Nat) (lastErr : Option ReqError) (tr : Trace) (s : Nat)
    (h : oracle attempt = .http s) (hs : 500 ≤ s ∨ s = 429)
    (hlt : attempt < retryConfig.maxRetries) :
    makeRequestGo retryConfig oracle refreshOk attempt (fuel + 1) lastErr tr =
      makeRequestGo retryConfig oracle refreshOk (attempt + 1) fuel
        (some (.http s))
        ⟨tr.attempts + 1, tr.refreshes,
         tr.delays ++ [min (1000 * 2 ^ attempt) 10000]⟩ := by
  have h401 : s ≠ 401 := by rcases hs with h5 | h9 <;> omega
  have h403 : s ≠ 403 := by rcases hs with h5 | h9 <;> omega
  have hlt3 : attempt < 3 := hlt
  simp [makeRequestGo, h, h401, h403, hs, hlt3, backoffDelay, retryConfig]

/-- Witness for C3: a 503 on the first attempt waits 1000 ms and retries. -/
theorem c3_backoff_5xx_429_witness :
    makeRequestGo retryConfig (fun _ => Outcome.http 503) (fun _ => true) 0 4
      none emptyTrace =
      makeRequestGo retryConfig (fun _ => Outcome.http 503) (fun _ => true) 1 3
        (some (.http 503)) ⟨1, 0, [1000]⟩ := by
  have h := c3_backoff_5xx_429 (fun _ => Outcome.http 503) (fun _ => true)
    0 3 none emptyTrace 503 rfl (Or.inl (by decide)) (by decide)
  simpa [emptyTrace] using h

/-- C4: every request performs at most `maxRetries + 1` (= 4) fetch attempts
and terminates (`makeRequest` is a total function); a successful result is the
parsed body of some successful attempt, and a failure is an actual attempt
error, never the unreachable synthetic `'All API request attempts failed'`
fallback of line 206. -/
theorem c4_attempt_bound_termination (oracle : Nat → Outcome)
    (refreshOk : Nat → Bool) :
    (makeRequest oracle refreshOk).2.attempts ≤ retryConfig.maxRetries + 1 ∧
    (∀ b, (makeRequest oracle refreshOk).1 = .ok b → ∃ i, oracle i = .ok b) ∧
    (makeRequest oracle refreshOk).1 ≠ .error .allFailed := by
  refine ⟨?_, ?_, ?_⟩
  · have := attempts_le retryConfig oracle refreshOk
      (retryConfig.maxRetries + 1) 0 none emptyTrace
    simpa [makeRequest, emptyTrace] using this
  · intro b hb
    exact ok_from_oracle retryConfig oracle refreshOk _ _ _ _ _ hb
  · exact go_no_allFailed retryConfig oracle refreshOk _ _ none emptyTrace
      (by decide) (by decide)

/-- Witness for C4 at an immediately successful oracle. -/
theorem c4_attempt_bound_termination_witness :
    (makeRequest oracleOk5 (fun _ => true)).2.attempts ≤ 4 ∧
    (∃ i, oracleOk5 i = Outcome.ok 5) ∧
    (makeRequest oracleOk5 (fun _ => true)).1 ≠ .error .allFailed := by
  have h := c4_attempt_bound_termination oracleOk5 (fun _ => true)
  exact ⟨h.1, h.2.1 5 rfl, h.2.2⟩

/-- C5: when an attempt fails with a network-level error (no HTTP status) and
attempts remain, the client waits the same `min(1000 * 2 ^ attempt, 10000)`
backoff and retries; when no attempts remain the error is thrown. -/
theorem c5_network_error_retry (oracle : Nat → Outcome)
    (refreshOk : Nat → Bool) (attempt fuel : Nat) (lastErr : Option ReqError)
    (tr : Trace) (h : oracle attempt = .net) :
    (attempt < retryConfig.maxRetries →
      makeRequestGo retryConfig oracle refreshOk attempt (fuel + 1) lastErr tr =
        makeRequestGo retryConfig oracle refreshOk (attempt + 1) fuel
          (some .net)
          ⟨tr.attempts + 1, tr.refreshes,
           tr.delays ++ [min (1000 * 2 ^ attempt) 10000]⟩) ∧
    (retryConfig.maxRetries ≤ attempt →
      makeRequestGo retryConfig oracle refreshOk attempt (fuel + 1) lastErr tr =
        (.error .net, ⟨tr.attempts + 1, tr.refreshes, tr.delays⟩)) := by
  constructor
  · intro hlt
    have hlt3 : attempt < 3 := hlt
    simp [makeRequestGo, h, hlt3, backoffDelay, retryConfig]
  · intro hge
    have hge3 : (3 : Nat) ≤ attempt := hge
    have hlt3 : ¬ attempt < 3 := by omega
    simp [makeRequestGo, h, hlt3, retryConfig]

/-- Witness for C5: an all-network-failure request at attempts 0 and 3. -/
theorem c5_network_error_retry_witness :
    (makeRequestGo retryConfig (fun _ => Outcome.net) (fun _ => true) 0 4 none
       emptyTrace =
      makeRequestGo retryConfig (fun _ => Outcome.net) (fun _ => true) 1 3
        (some .net) ⟨1, 0, [1000]⟩) ∧
    (makeRequestGo retryConfig (fun _ => Outcome.net) (fun _ => true) 3 1 none
       ⟨3, 0, [1000, 2000, 4000]⟩ =
      (.error .net, ⟨4, 0, [1000, 2000, 4000]⟩)) := by
  constructor
  · have h := (c5_network_error_retry (fun _ => Outcome.net) (fun _ => true)
      0 3 none emptyTrace rfl).1 (by decide)
    simpa [emptyTrace] using h
  · exact (c5_network_error_retry (fun _ => Outcome.net) (fun _ => true)
      3 0 none ⟨3, 0, [1000, 2000, 4000]⟩ rfl).2 (by decide)

/-- C6: an attempt that receives a non-ok status other than 401, 403, 429 and
below 500 (for example 400 or 404) fails the request immediately: no wait, no
refresh, no further attempt. -/
theorem c6_other_status_fail_immediate (oracle : Nat → Outcome)
    (refreshOk : Nat → Bool) (attempt fuel : Nat) (lastErr : Option ReqError)
    (tr : Trace) (s : Nat) (h : oracle attempt = .http s) (h401 : s ≠ 401)
    (h403 : s ≠ 403) (h429 : s ≠ 429) (h500 : s < 500) :
    makeRequestGo retryConfig oracle refreshOk attempt (fuel + 1) lastErr tr =
      (.error (.http s), ⟨tr.attempts + 1, tr.refreshes, tr.delays⟩) := by
  have h5xx : ¬ (500 ≤ s ∨ s = 429) := by omega
  simp [makeRequestGo, h, h401, h403, h5xx]

/-- Witness for C6: a 404 on the first attempt. -/
theorem c6_other_status_fail_immediate_witness :
    makeRequestGo retryConfig (fun _ => Outcome.http 404) (fun _ => true) 0 4
      none emptyTrace = (.error (.http 404), ⟨1, 0, []⟩) := by
  simpa [emptyTrace] using c6_other_status_fail_immediate
    (fun _ => Outcome.http 404) (fun _ => true) 0 3 none emptyTrace 404 rfl
    (by decide) (by decide) (by decide) (by decide)

/-- C7: for any settings state at the moment `showSettings` opens the modal
and any sequence of `setSetting` mutations while it is open, `handleCancel`
restores the controller's settings to the deep-copied snapshot taken at open,
i.e. cancelling is equivalent to never having mutated. -/
theorem c7_cancel_restores_snapshot (m : SettingsModule)
    (muts : List (String × SettingVal)) (h : m.isSettingsVisible = false) :
    (handleCancel (applyMutations (showSettings m) muts)).controller =
      m.controller := by
  have horig : (applyMutations (showSettings m) muts).originalSettings =
      deepCopy m.controller := by
    rw [applyMutations_originalSettings]
    simp [showSettings, h]
  calc (handleCancel (applyMutations (showSettings m) muts)).controller
      = (applyMutations (showSettings m) muts).originalSettings := rfl
    _ = deepCopy m.controller := horig
    _ = m.controller := deepCopy_id m.controller

/-- Witness for C7: open the modal on a concrete state, change the theme and
a sleep time, cancel; the settings are back to the original. -/
theorem c7_cancel_restores_snapshot_witness :
    (handleCancel (applyMutations (showSettings exampleModule)
        [("display.theme", .str "light"), ("sleep.sleepTime", .str "23:00")]
      )).controller = exampleModule.controller :=
  c7_cancel_restores_snapshot exampleModule
    [("display.theme", .str "light"), ("sleep.sleepTime", .str "23:00")] rfl

/-- C8: after `signOut()` the current user is cleared: `getUser()` is null,
`isAuthenticated()` is false, the saved user is removed from storage, and the
`storage.clearSavedUser` call was made. -/
theorem c8_signout_clears_user (s : AuthState) :
    getUser (signOut s) = none ∧ isAuthenticated (signOut s) = false ∧
    (signOut s).savedUser = none ∧
    Effect.clearSavedUser ∈ (signOut s).effects := by
  refine ⟨rfl, rfl, rfl, ?_⟩
  simp [signOut]

/-- C9: on an initialization failure, `handleAuthFailure` falls back to the
saved user when one exists (`currentUser` becomes that user, `isSignedIn`
becomes true, and only the signed-in UI state is shown); only when no saved
user exists does it instead run the environment-specific recovery: the Fire TV
fallback chain, or a WebView prompt / error message that leaves the user state
unchanged. -/
theorem c9_auth_failure_saved_user_fallback (s : AuthState) (err : String)
    (dfr fbr : Except String AuthResult) (now : Nat) :
    (∀ u, s.savedUser = some u →
      handleAuthFailure s err dfr fbr now =
        { s with currentUser := some u
                 isSignedIn := true
                 effects := s.effects ++ [.showSignedInState] }) ∧
    (s.savedUser = none → s.isFireTV = true →
      handleAuthFailure s err dfr fbr now =
        handleFireTVAuthFailure s dfr fbr now) ∧
    (s.savedUser = none → s.isFireTV = false →
      (handleAuthFailure s err dfr fbr now).currentUser = s.currentUser ∧
      (handleAuthFailure s err dfr fbr now).isSignedIn = s.isSignedIn ∧
      (handleAuthFailure s err dfr fbr now).effects = s.effects ++
        [if s.isWebView then Effect.showWebViewAuthPrompt
         else Effect.showAuthError
           "Authentication service is currently unavailable."]) := by
  refine ⟨?_, ?_, ?_⟩
  · intro u hu
    simp [handleAuthFailure, hu]
  · intro h0 hf
    simp [handleAuthFailure, h0, hf]
  · intro h0 hf
    by_cases hw : s.isWebView <;> simp [handleAuthFailure, h0, hf, hw]

/-- Witness for C9: with a saved user the manager adopts it; without one (in a
plain browser) the user state is untouched. -/
theorem c9_auth_failure_saved_user_fallback_witness :
    (handleAuthFailure exampleState "boom" (.error "df") (.error "fb") 0 =
      { exampleState with currentUser := some exampleUser
                          isSignedIn := true
                          effects := exampleState.effects ++
                            [.showSignedInState] }) ∧
    (handleAuthFailure exampleStateNoSave "boom" (.error "df")
        (.error "fb") 0).currentUser = exampleStateNoSave.currentUser := by
  constructor
  · exact (c9_auth_failure_saved_user_fallback exampleState "boom"
      (.error "df") (.error "fb") 0).1 exampleUser rfl
  · exact ((c9_auth_failure_saved_user_fallback exampleStateNoSave "boom"
      (.error "df") (.error "fb") 0).2.2 rfl rfl).1

/-- C10: every public `AuthManager` operation preserves the invariant that
`isSignedIn === true` implies `currentUser` is non-null; and in any state
reached from the constructor state by these operations, `isAuthenticated()`
returns true exactly when a user object is present. -/
theorem c10_signedin_invariant :
    (∀ (s : AuthState) (op : AuthOp),
      SignedInInv s → SignedInInv (applyOp s op)) ∧
    (∀ (w n f : Bool) (su : Option User) (ops : List AuthOp),
      isAuthenticated (applyOps (initState w n f su) ops) =
        (applyOps (initState w n f su) ops).currentUser.isSome) := by
  constructor
  · intro s op h
    exact inv_of_shape s _ (applyOp_shape s op) h
  · intro w n f su ops
    exact isAuth_eq _ (flag_applyOps ops _ (by simp [initState, userMatchesFlag]))

/-- Witness for C10: the invariant survives a concrete sign-out, and
authentication matches user presence after a concrete operation sequence. -/
theorem c10_signedin_invariant_witness :
    SignedInInv (applyOp exampleState AuthOp.doSignOut) ∧
    isAuthenticated (applyOps (initState false false false none)
        [AuthOp.checkExisting]) =
      (applyOps (initState false false false none)
        [AuthOp.checkExisting]).currentUser.isSome := by
  constructor
  · exact c10_signedin_invariant.1 exampleState .doSignOut (fun _ => rfl)
  · exact c10_signedin_invariant.2 false false false none [AuthOp.checkExisting]

end Dashie
